import Mathlib

/-!
Shallow embedding of the kedro-plugins dataset adapters:
`kedro_datasets.pandas.parquet_dataset.ParquetDataset` (eager) and
`kedro_datasets.polars.lazy_polars_dataset.LazyPolarsDataset` (lazy).

Python dictionaries of reader/writer options are modelled as association
lists from string keys to an opaque value type `PyVal`; only key-level
behaviour (membership, removal, merge) is ever inspected by the code under
verification.  Filesystem effects (existence checks, directory checks,
stored artifacts) are passed in as explicit oracles, and each operation
returns an explicit outcome describing the call it would make or the error
it raises, so that the dispatch and guard logic of the source is captured
faithfully.
-/

/-- Values stored in Python option dictionaries.  The adapters never inspect
the shape of a value except for the `columns` load option (a list of column
names), so strings, lists of strings and booleans suffice. -/
inductive PyVal where
  | str : String → PyVal
  | strList : List String → PyVal
  | boolVal : Bool → PyVal
deriving DecidableEq, Repr

/-- A Python `dict[str, Any]` as an association list. -/
abbrev Dict := List (String × PyVal)

/-- Python `k in d`. -/
def dictHasKey (d : Dict) (k : String) : Bool :=
  d.any (fun e => e.1 == k)

/-- Python `d.pop(k, None)` (the resulting dictionary). -/
def dictPop (d : Dict) (k : String) : Dict :=
  d.filter (fun e => e.1 != k)

/-- Python dictionary-union `\x7b**a, **b\x7d`: keys of `b` override keys of `a`. -/
def dictMerge (a b : Dict) : Dict :=
  a.filter (fun e => !(dictHasKey b e.1)) ++ b

/-- Python `d.setdefault(k, v)` (the resulting dictionary). -/
def dictSetdefault (d : Dict) (k : String) (v : PyVal) : Dict :=
  if dictHasKey d k then d else d ++ [(k, v)]

/-- Python `d.get(k)`. -/
def dictGet (d : Dict) (k : String) : Option PyVal :=
  (d.find? (fun e => e.1 == k)).map (fun e => e.2)

/-- `kedro.io.core.Version`: a pair of an optional load token and an optional
save token. -/
structure Version where
  load : Option String
  save : Option String
deriving DecidableEq, Repr

/-- `kedro.io.core.PROTOCOL_DELIMITER`. -/
def PROTOCOL_DELIMITER : String := "://"

/-- Splits a character list at the first occurrence of the protocol
delimiter `://`, when present. -/
def splitProtocolChars : List Char → Option (List Char × List Char)
  | [] => none
  | ':' :: '/' :: '/' :: rest => some ([], rest)
  | c :: rest => (splitProtocolChars rest).map (fun pr => (c :: pr.1, pr.2))

/-- Modelled from the spec: `kedro.io.core.get_protocol_and_path` is not under
`src/`; per the spec, a protocol prefix such as `s3://` selects the
filesystem and an unprefixed path uses the local `file` protocol. -/
def get_protocol_and_path (filepath : String) : String × String :=
  match splitProtocolChars filepath.data with
  | some (p, rest) => (String.mk p, String.mk rest)
  | none => ("file", filepath)

/-- The characters after the last slash, accumulating the current segment. -/
def basenameAux : List Char → List Char → List Char
  | [], acc => acc.reverse
  | '/' :: rest, _ => basenameAux rest []
  | c :: rest, acc => basenameAux rest (c :: acc)

/-- Basename of a slash-separated path. -/
def basenameOf (p : String) : String :=
  String.mk (basenameAux p.data [])

/-- Python `s.lower()`, character by character. -/
def strToLower (s : String) : String :=
  String.mk (s.data.map Char.toLower)

/-- Modelled from the spec: the versioned layout
`<base_path>/<version_token>/<basename>` of `kedro.io.core`, which is not
under `src/`. -/
def versionedPath (filepath token : String) : String :=
  filepath ++ "/" ++ token ++ "/" ++ basenameOf filepath

/-- Modelled from the spec: the most recent of the existing version tokens;
tokens are sortable strings, so the most recent one is the maximum. -/
def latestVersion : List String → Option String
  | [] => none
  | v :: vs => some (vs.foldl (fun a b => if a.data < b.data then b else a) v)

/-- Modelled from the spec: `AbstractVersionedDataset._get_load_path` of
`kedro.io.core`, which is not under `src/`.  Unversioned datasets load from
the configured filepath; a set load token selects that exact version;
otherwise the most recent existing version is selected, and a
`DatasetError` is raised when no version exists.  `existing` is the oracle
for the version tokens present on the filesystem. -/
def resolveLoadPath (filepath : String) (version : Option Version)
    (existing : List String) : Except String String :=
  match version with
  | none => Except.ok filepath
  | some v =>
    match v.load with
    | some t => Except.ok (versionedPath filepath t)
    | none =>
      match latestVersion existing with
      | some t => Except.ok (versionedPath filepath t)
      | none => Except.error ("Did not find any versions for " ++ filepath)

/-- Modelled from the spec: `AbstractVersionedDataset._get_save_path` of
`kedro.io.core`, which is not under `src/`.  A set save token is used as is;
otherwise the token `generated` at call time is used. -/
def resolveSavePath (filepath : String) (version : Option Version)
    (generated : String) : String :=
  match version with
  | none => filepath
  | some v => versionedPath filepath (v.save.getD generated)

/-- The `storage_options` drop shared by both constructors: when either
option map contains the key `storage_options`, it is removed from both (a
warning is logged), so it is never forwarded to the reader or writer. -/
def stripStorageOptions (la sa : Dict) : Dict × Dict :=
  if dictHasKey sa "storage_options" || dictHasKey la "storage_options" then
    (dictPop la "storage_options", dictPop sa "storage_options")
  else (la, sa)

/-- The state of `pandas.ParquetDataset` after `__init__`. -/
structure ParquetDataset where
  protocol : String
  filepath : String
  storage_options : Dict
  load_args : Dict
  save_args : Dict
  version : Option Version
deriving DecidableEq, Repr

/-- `ParquetDataset.DEFAULT_LOAD_ARGS`. -/
def ParquetDataset.DEFAULT_LOAD_ARGS : Dict := []

/-- `ParquetDataset.DEFAULT_SAVE_ARGS`. -/
def ParquetDataset.DEFAULT_SAVE_ARGS : Dict := []

/-- `ParquetDataset.__init__`: splits the protocol off the filepath, builds
the storage options from credentials and filesystem arguments (with
`auto_mkdir` defaulted for the local protocol), merges the default and
caller load/save options, and drops a caller-supplied `storage_options` key
from both option maps. -/
def ParquetDataset.init (filepath : String) (load_args save_args : Option Dict)
    (version : Option Version) (credentials fs_args : Option Dict) :
    ParquetDataset :=
  let fsArgs0 := dictPop (dictPop (fs_args.getD []) "open_args_load") "open_args_save"
  let creds := credentials.getD []
  let pp := get_protocol_and_path filepath
  let fsArgs :=
    if pp.1 == "file" then dictSetdefault fsArgs0 "auto_mkdir" (PyVal.boolVal true)
    else fsArgs0
  let la0 := dictMerge ParquetDataset.DEFAULT_LOAD_ARGS (load_args.getD [])
  let sa0 := dictMerge ParquetDataset.DEFAULT_SAVE_ARGS (save_args.getD [])
  { protocol := pp.1
    filepath := pp.2
    storage_options := dictMerge creds fsArgs
    load_args := (stripStorageOptions la0 sa0).1
    save_args := (stripStorageOptions la0 sa0).2
    version := version }

/-- The call `ParquetDataset.load` issues to the pandas reader, or the
`DatasetError` raised while resolving the load path.  `readLocal` is the
bare-path call made for the local `file` protocol, without storage options;
`readRemote` carries the protocol-qualified path and the storage options. -/
inductive EagerLoadOutcome where
  | resolveError : String → EagerLoadOutcome
  | readLocal : String → Dict → EagerLoadOutcome
  | readRemote : String → Dict → Dict → EagerLoadOutcome
deriving DecidableEq, Repr

/-- `ParquetDataset.load`: resolves the load path and dispatches on the
protocol, calling `pandas.read_parquet` on the bare path for the local
protocol and on the protocol-qualified path with the storage options for
every other protocol. -/
def ParquetDataset.load (d : ParquetDataset) (existing : List String) :
    EagerLoadOutcome :=
  match resolveLoadPath d.filepath d.version existing with
  | Except.error e => EagerLoadOutcome.resolveError e
  | Except.ok lp =>
    if d.protocol == "file" then EagerLoadOutcome.readLocal lp d.load_args
    else
      EagerLoadOutcome.readRemote (d.protocol ++ PROTOCOL_DELIMITER ++ lp)
        d.storage_options d.load_args

/-- A store of written artifacts: newest entry first, keyed by path. -/
abbrev Store := List (String × String)

/-- Reading the artifact at a path (the newest write wins). -/
def readArtifact (store : Store) (path : String) : Option String :=
  (store.find? (fun e => e.1 == path)).map (fun e => e.2)

/-- `ParquetDataset.load` composed with the reader: the data returned by
`pandas.read_parquet` at the dispatched path, given the `store` of written
artifacts. -/
def ParquetDataset.loadData (d : ParquetDataset) (existing : List String)
    (store : Store) : Except String (Option String) :=
  match d.load existing with
  | EagerLoadOutcome.resolveError e => Except.error e
  | EagerLoadOutcome.readLocal p _ => Except.ok (readArtifact store p)
  | EagerLoadOutcome.readRemote p _ _ => Except.ok (readArtifact store p)

/-- Outcome of `ParquetDataset.save`: either a raised `DatasetError`, or the
single write performed through the filesystem handle.  The `write`
constructor is the only one under which the filesystem `open` is reached. -/
inductive SaveOutcome where
  | raise : String → SaveOutcome
  | write : String → Dict → SaveOutcome
deriving DecidableEq, Repr

/-- Message of the directory-target `DatasetError` of `ParquetDataset.save`. -/
def dirNotSupportedMsg : String :=
  "Saving ParquetDataset to a directory is not supported."

/-- Message of the `partition_cols` `DatasetError` of `ParquetDataset.save`. -/
def partitionColsMsg : String :=
  "ParquetDataset does not support save argument partition_cols. Please use kedro.io.PartitionedDataset instead."

/-- `ParquetDataset.save`: resolves the save path (with `generated` the
version token generated at call time), raises if the target is an existing
directory, then raises if the save options contain `partition_cols`, and
only otherwise opens the filesystem handle and writes.  `isDir` is the
filesystem oracle for `Path(save_path).is_dir()`. -/
def ParquetDataset.save (d : ParquetDataset) (generated : String)
    (isDir : String → Bool) : SaveOutcome :=
  let savePath := resolveSavePath d.filepath d.version generated
  if isDir savePath then SaveOutcome.raise dirNotSupportedMsg
  else if dictHasKey d.save_args "partition_cols" then
    SaveOutcome.raise partitionColsMsg
  else SaveOutcome.write savePath d.save_args

/-- `ParquetDataset.save` composed with the store: a successful save
records the written blob at the save path (newest first). -/
def ParquetDataset.saveData (d : ParquetDataset) (generated : String)
    (isDir : String → Bool) (blob : String) (store : Store) :
    Except String Store :=
  match d.save generated isDir with
  | SaveOutcome.raise e => Except.error e
  | SaveOutcome.write p _ => Except.ok ((p, blob) :: store)

/-- `ParquetDataset._exists`: a `DatasetError` during load-path resolution
is caught and reported as `false`; otherwise the filesystem existence check
on the resolved path is returned.  `fsExists` is the filesystem oracle. -/
def ParquetDataset.existsCheck (d : ParquetDataset) (existing : List String)
    (fsExists : String → Bool) : Bool :=
  match resolveLoadPath d.filepath d.version existing with
  | Except.error _ => false
  | Except.ok p => fsExists p

/-- A parquet file as seen by `pyarrow.parquet.read_table`: column names and
rows of cell values (each row aligned with `columns`). -/
structure PqTable where
  columns : List String
  rows : List (List String)
deriving DecidableEq, Repr

/-- The cell of `row` under column `c`, where `row` is aligned with `cols`. -/
def selectCell (cols : List String) (row : List String) (c : String) : String :=
  match cols.findIdx? (fun x => x == c) with
  | some i => row.getD i ""
  | none => ""

/-- `pyarrow.parquet.read_table(path, columns=cols)`: the whole table of the
file, restricted to the requested columns when `cols` is set.  Every row of
the file is materialized; no row limit is passed. -/
def pqReadTable (file : PqTable) (cols : Option (List String)) : PqTable :=
  match cols with
  | none => file
  | some cs =>
    { columns := cs
      rows := file.rows.map (fun r => cs.map (selectCell file.columns r)) }

/-- The `columns` entry of the load options, as passed to the reader. -/
def dictColumns (d : Dict) : Option (List String) :=
  match dictGet d "columns" with
  | some (PyVal.strList cs) => some cs
  | _ => none

/-- `kedro_datasets._typing.TablePreview` in pandas split orientation:
column names, row index and row values. -/
structure TablePreview where
  columns : List String
  index : List Nat
  data : List (List String)
deriving DecidableEq, Repr

/-- `ParquetDataset.preview`: resolves the load path, calls
`pyarrow.parquet.read_table` on it with the `columns` load option, slices
the first `nrows` rows off the returned table, and converts to the split
structure.  `file` is the oracle for the parquet file at the resolved load
path. -/
def ParquetDataset.preview (d : ParquetDataset) (existing : List String)
    (file : PqTable) (nrows : Nat) : Except String TablePreview :=
  match resolveLoadPath d.filepath d.version existing with
  | Except.error e => Except.error e
  | Except.ok _ =>
    let table := pqReadTable file (dictColumns d.load_args)
    let sliced := table.rows.take nrows
    Except.ok { columns := table.columns, index := List.range sliced.length, data := sliced }

/-- The number of rows materialized by the `pyarrow.parquet.read_table` call
inside `ParquetDataset.preview` (the slicing to `nrows` happens only after
this read). -/
def ParquetDataset.previewRowsRead (d : ParquetDataset) (file : PqTable) : Nat :=
  (pqReadTable file (dictColumns d.load_args)).rows.length

/-- `polars.lazy_polars_dataset.ACCEPTED_FILE_FORMATS`. -/
def ACCEPTED_FILE_FORMATS : List String := ["csv", "parquet"]

/-- The state of `polars.LazyPolarsDataset` after a successful `__init__`. -/
structure LazyPolarsDataset where
  protocol : String
  filepath : String
  file_format : String
  storage_options : Dict
  load_args : Dict
  save_args : Dict
  version : Option Version
deriving DecidableEq, Repr

/-- Filesystem-touching events of `LazyPolarsDataset.__init__`; the only one
is the `fsspec.filesystem(...)` instantiation. -/
inductive InitEvent where
  | filesystemCreated : String → Dict → InitEvent
deriving DecidableEq, Repr

/-- Message of the `DatasetError` raised by `LazyPolarsDataset.__init__` for
a format tag outside the accepted set. -/
def lazyFormatErrMsg (fmt : String) : String :=
  fmt ++ " is not an accepted format; ensure that your file_format parameter has been defined correctly as per the Polars API"

/-- `LazyPolarsDataset.__init__`: lowercases the format tag and raises a
`DatasetError` if it is outside `ACCEPTED_FILE_FORMATS` — before any other
work, in particular before the filesystem instance is created.  On the
success path it proceeds exactly as the eager constructor and records the
filesystem creation event.  Returns the event trace together with either
the raised error or the constructed instance. -/
def LazyPolarsDataset.init (filepath file_format : String)
    (load_args save_args : Option Dict) (version : Option Version)
    (credentials fs_args : Option Dict) :
    List InitEvent × Except String LazyPolarsDataset :=
  let fmt := strToLower file_format
  if ACCEPTED_FILE_FORMATS.contains fmt then
    let fsArgs0 := dictPop (dictPop (fs_args.getD []) "open_args_load") "open_args_save"
    let creds := credentials.getD []
    let pp := get_protocol_and_path filepath
    let fsArgs :=
      if pp.1 == "file" then dictSetdefault fsArgs0 "auto_mkdir" (PyVal.boolVal true)
      else fsArgs0
    let so := dictMerge creds fsArgs
    let la0 := dictMerge [] (load_args.getD [])
    let sa0 := dictMerge [] (save_args.getD [])
    ([InitEvent.filesystemCreated pp.1 so],
      Except.ok
        { protocol := pp.1
          filepath := pp.2
          file_format := fmt
          storage_options := so
          load_args := (stripStorageOptions la0 sa0).1
          save_args := (stripStorageOptions la0 sa0).2
          version := version })
  else ([], Except.error (lazyFormatErrMsg fmt))

/-- `errno.ENOENT`, the OS file-not-found code. -/
def ENOENT : Nat := 2

/-- `LazyPolarsDataset._exists`: identical to the eager variant — a
`DatasetError` during load-path resolution is caught and reported as
`false`; otherwise the filesystem existence check on the resolved path. -/
def LazyPolarsDataset.existsCheck (d : LazyPolarsDataset)
    (existing : List String) (fsExists : String → Bool) : Bool :=
  match resolveLoadPath d.filepath d.version existing with
  | Except.error _ => false
  | Except.ok p => fsExists p

/-- Outcome of `LazyPolarsDataset.load`: the `DatasetError` raised while
resolving the load path, the `FileNotFoundError` (carrying its errno code)
raised when the existence check fails, the local `polars.scan_<format>`
call, or the remote `pyarrow.dataset` + `polars.scan_pyarrow_dataset`
construction.  Only the last two constructors read any data. -/
inductive LazyLoadOutcome where
  | resolveError : String → LazyLoadOutcome
  | fileNotFound : Nat → String → LazyLoadOutcome
  | scanLocal : String → String → Dict → LazyLoadOutcome
  | scanPyarrowDataset : String → String → Dict → LazyLoadOutcome
deriving DecidableEq, Repr

/-- `LazyPolarsDataset.load`: resolves the load path, raises
`FileNotFoundError(ENOENT, ..., load_path)` when `_exists()` is false, and
otherwise dispatches on the protocol: `polars.scan_<format>` on the bare
path for the local protocol, a pyarrow dataset over the filesystem for any
other protocol. -/
def LazyPolarsDataset.load (d : LazyPolarsDataset) (existing : List String)
    (fsExists : String → Bool) : LazyLoadOutcome :=
  match resolveLoadPath d.filepath d.version existing with
  | Except.error e => LazyLoadOutcome.resolveError e
  | Except.ok lp =>
    if d.existsCheck existing fsExists = false then
      LazyLoadOutcome.fileNotFound ENOENT lp
    else if d.protocol == "file" then
      LazyLoadOutcome.scanLocal ("scan_" ++ d.file_format) lp d.load_args
    else LazyLoadOutcome.scanPyarrowDataset lp d.file_format d.load_args

/-- The write entry points exposed by a materialized polars frame, as the
`getattr(collected_data, "write_" + file_format)` lookup of
`LazyPolarsDataset.save` sees them.  Modelled from the polars DataFrame API
referenced in the source docstring. -/
def polarsWriteMethods : List String :=
  ["write_avro", "write_csv", "write_ipc", "write_json", "write_ndjson",
   "write_parquet"]

/-- Message of the defensive `DatasetError` of `LazyPolarsDataset.save` for
a missing write method. -/
def lazyWriteMissingMsg (fmt : String) : String :=
  "Unable to retrieve polars.DataFrame.write_" ++ fmt ++ " method, please ensure that your file_format parameter has been defined correctly as per the Polars API"

/-- Outcome of `LazyPolarsDataset.save`: the write performed through the
scoped filesystem handle, or the defensive `DatasetError` raised when no
matching write method is found on the materialized frame.  Lazy input
frames are collected first; materialization does not affect which branch is
taken, so the data itself is not a parameter here. -/
inductive LazySaveOutcome where
  | wrote : String → String → Dict → LazySaveOutcome
  | writeMethodMissing : String → LazySaveOutcome
deriving DecidableEq, Repr

/-- `LazyPolarsDataset.save`: resolves the save path (with `generated` the
version token generated at call time), looks up `write_<format>` on the
materialized frame, and either writes through the filesystem handle or
raises the defensive `DatasetError`. -/
def LazyPolarsDataset.save (d : LazyPolarsDataset) (generated : String) :
    LazySaveOutcome :=
  let savePath := resolveSavePath d.filepath d.version generated
  if polarsWriteMethods.contains ("write_" ++ d.file_format) then
    LazySaveOutcome.wrote savePath ("write_" ++ d.file_format) d.save_args
  else LazySaveOutcome.writeMethodMissing (lazyWriteMissingMsg d.file_format)

theorem dictHasKey_dictPop (d : Dict) (k : String) :
    dictHasKey (dictPop d k) k = false := by
  induction d with
  | nil => rfl
  | cons e es ih =>
    by_cases he : e.1 = k
    · simpa [dictPop, List.filter_cons, he] using ih
    · simp [dictPop, List.filter_cons, dictHasKey, List.any_cons, he] at ih ⊢

theorem stripStorageOptions_fst (la sa : Dict) :
    dictHasKey (stripStorageOptions la sa).1 "storage_options" = false := by
  unfold stripStorageOptions
  by_cases h : (dictHasKey sa "storage_options" || dictHasKey la "storage_options") = true
  · simp [h, dictHasKey_dictPop]
  · simp only [Bool.or_eq_true] at h
    push_neg at h
    simp only [Bool.not_eq_true] at h
    simp [h.1, h.2]

theorem stripStorageOptions_snd (la sa : Dict) :
    dictHasKey (stripStorageOptions la sa).2 "storage_options" = false := by
  unfold stripStorageOptions
  by_cases h : (dictHasKey sa "storage_options" || dictHasKey la "storage_options") = true
  · simp [h, dictHasKey_dictPop]
  · simp only [Bool.or_eq_true] at h
    push_neg at h
    simp only [Bool.not_eq_true] at h
    simp [h.1, h.2]

theorem latestVersion_pair (v1 v2 : String) (h : v1 < v2) :
    latestVersion [v1, v2] = some v2 := by
  simp only [latestVersion, List.foldl]
  rw [if_pos (show v1.data < v2.data from String.lt_iff_toList_lt.mp h)]

/-- C2: for every eager `ParquetDataset` whose save options contain the key
`partition_cols`, and every save-path and directory-check environment,
`save` raises a `DatasetError` and never reaches the filesystem
open/write. -/
theorem parquet_save_partition_cols_never_writes (d : ParquetDataset)
    (generated : String) (isDir : String → Bool)
    (h : dictHasKey d.save_args "partition_cols" = true) :
    (∃ e, d.save generated isDir = SaveOutcome.raise e) ∧
      ∀ p args, d.save generated isDir ≠ SaveOutcome.write p args := by
  unfold ParquetDataset.save
  by_cases hd : isDir (resolveSavePath d.filepath d.version generated) = true
  · simp [hd]
  · simp only [Bool.not_eq_true] at hd
    simp [hd, h]

/-- A `ParquetDataset` constructed with `partition_cols` in its save
options. -/
def parquetPartitionSample : ParquetDataset :=
  ParquetDataset.init "data/x.parquet" none
    (some [("partition_cols", PyVal.strList ["a"])]) none none none

/-- Witness for C2 at a concrete instance. -/
theorem parquet_save_partition_cols_never_writes_witness :
    (∃ e, parquetPartitionSample.save "v1" (fun _ => false) = SaveOutcome.raise e) ∧
      ∀ p args,
        parquetPartitionSample.save "v1" (fun _ => false) ≠ SaveOutcome.write p args :=
  parquet_save_partition_cols_never_writes parquetPartitionSample "v1"
    (fun _ => false) (by decide)

/-- C3: for every eager `ParquetDataset`, when the resolved save path is an
existing directory, `save` raises the directory-target `DatasetError`
before any write attempt (the outcome is a raise, so the filesystem handle
is never opened). -/
theorem parquet_save_directory_target_raises (d : ParquetDataset)
    (generated : String) (isDir : String → Bool)
    (h : isDir (resolveSavePath d.filepath d.version generated) = true) :
    d.save generated isDir = SaveOutcome.raise dirNotSupportedMsg := by
  unfold ParquetDataset.save
  simp [h]

/-- A plain unversioned `ParquetDataset`. -/
def parquetPlainSample : ParquetDataset :=
  ParquetDataset.init "data/x.parquet" none none none none none

/-- Witness for C3 at a concrete instance. -/
theorem parquet_save_directory_target_raises_witness :
    parquetPlainSample.save "v1" (fun _ => true) = SaveOutcome.raise dirNotSupportedMsg :=
  parquet_save_directory_target_raises parquetPlainSample "v1" (fun _ => true) rfl

/-- C4: constructing a `LazyPolarsDataset` with a format tag whose
lowercasing is outside `ACCEPTED_FILE_FORMATS` raises the format
`DatasetError`, with an empty filesystem-event trace: the filesystem
instance is only created after the format tag is validated. -/
theorem lazy_init_rejects_unknown_format (fp fmt : String)
    (la sa : Option Dict) (v : Option Version) (cr fa : Option Dict)
    (h : ACCEPTED_FILE_FORMATS.contains (strToLower fmt) = false) :
    LazyPolarsDataset.init fp fmt la sa v cr fa =
      ([], Except.error (lazyFormatErrMsg (strToLower fmt))) := by
  unfold LazyPolarsDataset.init
  replace h : strToLower fmt ∉ ACCEPTED_FILE_FORMATS := by simpa using h
  simp [h]

/-- Witness for C4 at the concrete format tag `JSON`. -/
theorem lazy_init_rejects_unknown_format_witness :
    LazyPolarsDataset.init "data/x.json" "JSON" none none none none none =
      ([], Except.error (lazyFormatErrMsg (strToLower "JSON"))) :=
  lazy_init_rejects_unknown_format "data/x.json" "JSON" none none none none none
    (by decide)

/-- C5: for every `LazyPolarsDataset`, when the load path resolves but the
filesystem existence check on it is false, `load` raises
`FileNotFoundError` carrying the OS code `ENOENT` and the resolved path,
and no scan call is made. -/
theorem lazy_load_missing_path_raises_enoent (d : LazyPolarsDataset)
    (existing : List String) (fsExists : String → Bool) (p : String)
    (hres : resolveLoadPath d.filepath d.version existing = Except.ok p)
    (hex : fsExists p = false) :
    d.load existing fsExists = LazyLoadOutcome.fileNotFound ENOENT p := by
  unfold LazyPolarsDataset.load LazyPolarsDataset.existsCheck
  rw [hres]
  simp [hex]

/-- A plain unversioned `LazyPolarsDataset` over a local csv file. -/
def lazyCsvSample : LazyPolarsDataset :=
  { protocol := "file"
    filepath := "data/y.csv"
    file_format := "csv"
    storage_options := [("auto_mkdir", PyVal.boolVal true)]
    load_args := []
    save_args := []
    version := none }

/-- Witness for C5 at a concrete instance. -/
theorem lazy_load_missing_path_raises_enoent_witness :
    lazyCsvSample.load [] (fun _ => false) =
      LazyLoadOutcome.fileNotFound ENOENT "data/y.csv" :=
  lazy_load_missing_path_raises_enoent lazyCsvSample [] (fun _ => false)
    "data/y.csv" rfl rfl

/-- C6: for every eager `ParquetDataset` whose load path resolves, `load`
dispatches on the protocol: the local `file` protocol calls the reader on
the bare resolved path without storage options, and every other protocol
calls it on the protocol-qualified path with the storage options passed
through. -/
theorem parquet_load_protocol_dispatch (d : ParquetDataset)
    (existing : List String) (lp : String)
    (hres : resolveLoadPath d.filepath d.version existing = Except.ok lp) :
    (d.protocol = "file" →
        d.load existing = EagerLoadOutcome.readLocal lp d.load_args) ∧
      (d.protocol ≠ "file" →
        d.load existing =
          EagerLoadOutcome.readRemote (d.protocol ++ PROTOCOL_DELIMITER ++ lp)
            d.storage_options d.load_args) := by
  unfold ParquetDataset.load
  rw [hres]
  constructor
  · intro h
    simp [h]
  · intro h
    simp [h]

/-- An eager `ParquetDataset` over an s3 path with a credential. -/
def parquetS3Sample : ParquetDataset :=
  ParquetDataset.init "s3://bucket/x.parquet" none none none
    (some [("key", PyVal.str "k")]) none

/-- Witness for C6 at a local and at a remote concrete instance. -/
theorem parquet_load_protocol_dispatch_witness :
    parquetPlainSample.load [] =
        EagerLoadOutcome.readLocal "data/x.parquet" parquetPlainSample.load_args ∧
      parquetS3Sample.load [] =
        EagerLoadOutcome.readRemote ("s3" ++ PROTOCOL_DELIMITER ++ "bucket/x.parquet")
          parquetS3Sample.storage_options parquetS3Sample.load_args :=
  ⟨(parquet_load_protocol_dispatch parquetPlainSample [] "data/x.parquet" rfl).1 rfl,
   (parquet_load_protocol_dispatch parquetS3Sample [] "bucket/x.parquet" rfl).2
     (by decide)⟩

/-- C8: for both dataset variants, the existence check treats load-path
resolution failure as absence: a `DatasetError` during resolution yields
`false`, and otherwise the filesystem existence result for the resolved
path is returned. -/
theorem exists_check_treats_resolution_failure_as_false :
    (∀ (d : ParquetDataset) (existing : List String) (fsExists : String → Bool)
        (e : String),
        resolveLoadPath d.filepath d.version existing = Except.error e →
          d.existsCheck existing fsExists = false) ∧
      (∀ (d : ParquetDataset) (existing : List String) (fsExists : String → Bool)
          (p : String),
          resolveLoadPath d.filepath d.version existing = Except.ok p →
            d.existsCheck existing fsExists = fsExists p) ∧
      (∀ (d : LazyPolarsDataset) (existing : List String) (fsExists : String → Bool)
          (e : String),
          resolveLoadPath d.filepath d.version existing = Except.error e →
            d.existsCheck existing fsExists = false) ∧
      (∀ (d : LazyPolarsDataset) (existing : List String) (fsExists : String → Bool)
          (p : String),
          resolveLoadPath d.filepath d.version existing = Except.ok p →
            d.existsCheck existing fsExists = fsExists p) := by
  refine ⟨?_, ?_, ?_, ?_⟩
  · intro d existing fsExists e h
    unfold ParquetDataset.existsCheck
    rw [h]
  · intro d existing fsExists p h
    unfold ParquetDataset.existsCheck
    rw [h]
  · intro d existing fsExists e h
    unfold LazyPolarsDataset.existsCheck
    rw [h]
  · intro d existing fsExists p h
    unfold LazyPolarsDataset.existsCheck
    rw [h]

/-- A versioned eager `ParquetDataset` with no load token. -/
def parquetVersionedSample : ParquetDataset :=
  ParquetDataset.init "data/x.parquet" none none
    (some { load := none, save := none }) none none

/-- A versioned lazy `LazyPolarsDataset` with no load token. -/
def lazyVersionedSample : LazyPolarsDataset :=
  { lazyCsvSample with version := some { load := none, save := none } }

/-- Witness for C8: resolution fails on the versioned instances with no
existing version (existence is `false`), and succeeds on the unversioned
ones (existence is the filesystem answer). -/
theorem exists_check_treats_resolution_failure_as_false_witness :
    parquetVersionedSample.existsCheck [] (fun _ => true) = false ∧
      parquetPlainSample.existsCheck [] (fun _ => true) = true ∧
      lazyVersionedSample.existsCheck [] (fun _ => true) = false ∧
      lazyCsvSample.existsCheck [] (fun _ => true) = true :=
  ⟨exists_check_treats_resolution_failure_as_false.1 parquetVersionedSample []
      (fun _ => true) "Did not find any versions for data/x.parquet" rfl,
   exists_check_treats_resolution_failure_as_false.2.1 parquetPlainSample []
      (fun _ => true) "data/x.parquet" rfl,
   exists_check_treats_resolution_failure_as_false.2.2.1 lazyVersionedSample []
      (fun _ => true) "Did not find any versions for data/y.csv" rfl,
   exists_check_treats_resolution_failure_as_false.2.2.2 lazyCsvSample []
      (fun _ => true) "data/y.csv" rfl⟩

/-- C9: for every `LazyPolarsDataset` returned by a successful
construction, `save` always finds the `write_<format>` method on the
materialized frame, so the defensive missing-write-method `DatasetError`
branch is unreachable. -/
theorem lazy_save_write_method_always_found (fp fmt : String)
    (la sa : Option Dict) (v : Option Version) (cr fa : Option Dict)
    (evts : List InitEvent) (d : LazyPolarsDataset)
    (h : LazyPolarsDataset.init fp fmt la sa v cr fa = (evts, Except.ok d))
    (generated : String) (m : String) :
    d.save generated ≠ LazySaveOutcome.writeMethodMissing m := by
  unfold LazyPolarsDataset.init at h
  by_cases hc : ACCEPTED_FILE_FORMATS.contains (strToLower fmt) = true
  · rw [if_pos hc] at h
    simp only [Prod.mk.injEq, Except.ok.injEq] at h
    obtain ⟨-, h2⟩ := h
    have hfmt : d.file_format = strToLower fmt := by
      rw [← h2]
    have hmem : strToLower fmt = "csv" ∨ strToLower fmt = "parquet" := by
      simpa [ACCEPTED_FILE_FORMATS] using hc
    unfold LazyPolarsDataset.save
    rcases hmem with hcsv | hpq
    · simp [hfmt, hcsv, polarsWriteMethods]
    · simp [hfmt, hpq, polarsWriteMethods]
  · rw [if_neg hc] at h
    simp at h

/-- Witness for C9 at a concrete successful construction. -/
theorem lazy_save_write_method_always_found_witness :
    (LazyPolarsDataset.init "a.csv" "CSV" none none none none none).2.map
        (fun d => d.save "v1") ≠
      Except.ok (LazySaveOutcome.writeMethodMissing (lazyWriteMissingMsg "csv")) := by
  intro hbad
  refine lazy_save_write_method_always_found "a.csv" "CSV" none none none none none
    (LazyPolarsDataset.init "a.csv" "CSV" none none none none none).1
    { protocol := "file", filepath := "a.csv", file_format := "csv",
      storage_options := [("auto_mkdir", PyVal.boolVal true)],
      load_args := [], save_args := [], version := none }
    rfl "v1" (lazyWriteMissingMsg "csv") ?_
  exact Except.ok.inj hbad

/-- C10: neither constructor lets the key `storage_options` survive in the
stored load or save options: the eager constructor always strips it, and so
does the lazy constructor on every successful construction. -/
theorem constructors_drop_storage_options :
    (∀ (fp : String) (la sa : Option Dict) (v : Option Version)
        (cr fa : Option Dict),
        dictHasKey (ParquetDataset.init fp la sa v cr fa).load_args
            "storage_options" = false ∧
          dictHasKey (ParquetDataset.init fp la sa v cr fa).save_args
            "storage_options" = false) ∧
      ∀ (fp fmt : String) (la sa : Option Dict) (v : Option Version)
          (cr fa : Option Dict) (evts : List InitEvent) (d : LazyPolarsDataset),
          LazyPolarsDataset.init fp fmt la sa v cr fa = (evts, Except.ok d) →
            dictHasKey d.load_args "storage_options" = false ∧
              dictHasKey d.save_args "storage_options" = false := by
  constructor
  · intro fp la sa v cr fa
    exact ⟨stripStorageOptions_fst _ _, stripStorageOptions_snd _ _⟩
  · intro fp fmt la sa v cr fa evts d h
    unfold LazyPolarsDataset.init at h
    by_cases hc : ACCEPTED_FILE_FORMATS.contains (strToLower fmt) = true
    · rw [if_pos hc] at h
      simp only [Prod.mk.injEq, Except.ok.injEq] at h
      obtain ⟨-, h2⟩ := h
      rw [← h2]
      exact ⟨stripStorageOptions_fst _ _, stripStorageOptions_snd _ _⟩
    · rw [if_neg hc] at h
      simp at h

/-- Witness for C10: a caller-supplied `storage_options` key in the load
options is gone after construction, for both variants. -/
theorem constructors_drop_storage_options_witness :
    (dictHasKey
        (ParquetDataset.init "data/x.parquet"
            (some [("storage_options", PyVal.str "x")]) none none none none).load_args
        "storage_options" = false) ∧
      dictHasKey
          { protocol := "file", filepath := "a.csv", file_format := "csv",
            storage_options := [("auto_mkdir", PyVal.boolVal true)],
            load_args := [], save_args := [],
            version := none : LazyPolarsDataset }.load_args
          "storage_options" = false :=
  ⟨(constructors_drop_storage_options.1 "data/x.parquet"
      (some [("storage_options", PyVal.str "x")]) none none none none).1,
   (constructors_drop_storage_options.2 "a.csv" "CSV"
      (some [("storage_options", PyVal.str "x")]) none none none none
      [InitEvent.filesystemCreated "file" [("auto_mkdir", PyVal.boolVal true)]]
      { protocol := "file", filepath := "a.csv", file_format := "csv",
        storage_options := [("auto_mkdir", PyVal.boolVal true)],
        load_args := [], save_args := [], version := none }
      rfl).1⟩

/-- An eager dataset versioned with both tokens left unset, so the load
token is absent and save tokens are generated at call time. -/
def eagerAutoVersioned (fp : String) (so la sa : Dict) : ParquetDataset :=
  { protocol := "file"
    filepath := fp
    storage_options := so
    load_args := la
    save_args := sa
    version := some { load := none, save := none } }

/-- A lazy dataset versioned with both tokens left unset. -/
def lazyAutoVersioned (fp fmt : String) (so la sa : Dict) : LazyPolarsDataset :=
  { protocol := "file"
    filepath := fp
    file_format := fmt
    storage_options := so
    load_args := la
    save_args := sa
    version := some { load := none, save := none } }

/-- C1: with the load token absent, two prior saves under generated tokens
`v1 < v2` leave artifacts at the versioned paths for `v1` and `v2`, and
`load` resolves to the most recent existing version: the eager variant
returns the artifact written under `v2`, and the lazy variant issues its
scan on the `v2` path. -/
theorem load_resolves_latest_version (fp fmt a1 a2 v1 v2 : String)
    (so la sa : Dict) (h12 : v1 < v2)
    (hsa : dictHasKey sa "partition_cols" = false) :
    ((eagerAutoVersioned fp so la sa).saveData v1 (fun _ => false) a1 [] =
        Except.ok [(versionedPath fp v1, a1)]) ∧
      ((eagerAutoVersioned fp so la sa).saveData v2 (fun _ => false) a2
          [(versionedPath fp v1, a1)] =
        Except.ok [(versionedPath fp v2, a2), (versionedPath fp v1, a1)]) ∧
      ((eagerAutoVersioned fp so la sa).loadData [v1, v2]
          [(versionedPath fp v2, a2), (versionedPath fp v1, a1)] =
        Except.ok (some a2)) ∧
      ∀ fsExists : String → Bool,
        fsExists (versionedPath fp v2) = true →
          (lazyAutoVersioned fp fmt so la sa).load [v1, v2] fsExists =
            LazyLoadOutcome.scanLocal ("scan_" ++ fmt) (versionedPath fp v2) la := by
  have hres : resolveLoadPath fp (some { load := none, save := none }) [v1, v2] =
      Except.ok (versionedPath fp v2) := by
    unfold resolveLoadPath
    rw [latestVersion_pair v1 v2 h12]
  refine ⟨?_, ?_, ?_, ?_⟩
  · simp [ParquetDataset.saveData, ParquetDataset.save, eagerAutoVersioned,
      resolveSavePath, hsa]
  · simp [ParquetDataset.saveData, ParquetDataset.save, eagerAutoVersioned,
      resolveSavePath, hsa]
  · unfold ParquetDataset.loadData ParquetDataset.load
    rw [show (eagerAutoVersioned fp so la sa).filepath = fp from rfl,
      show (eagerAutoVersioned fp so la sa).version =
        some { load := none, save := none } from rfl, hres]
    simp [eagerAutoVersioned, readArtifact]
  · intro fsExists hex
    unfold LazyPolarsDataset.load LazyPolarsDataset.existsCheck
    rw [show (lazyAutoVersioned fp fmt so la sa).filepath = fp from rfl,
      show (lazyAutoVersioned fp fmt so la sa).version =
        some { load := none, save := none } from rfl, hres]
    simp [lazyAutoVersioned, hex]

/-- Witness for C1 at concrete timestamp-like tokens. -/
theorem load_resolves_latest_version_witness :
    ((eagerAutoVersioned "data/x.parquet" [] [] []).saveData
        "2024-01-01T00.00.00" (fun _ => false) "blob1" [] =
      Except.ok
        [(versionedPath "data/x.parquet" "2024-01-01T00.00.00", "blob1")]) ∧
      ((eagerAutoVersioned "data/x.parquet" [] [] []).saveData
          "2024-01-02T00.00.00" (fun _ => false) "blob2"
          [(versionedPath "data/x.parquet" "2024-01-01T00.00.00", "blob1")] =
        Except.ok
          [(versionedPath "data/x.parquet" "2024-01-02T00.00.00", "blob2"),
           (versionedPath "data/x.parquet" "2024-01-01T00.00.00", "blob1")]) ∧
      ((eagerAutoVersioned "data/x.parquet" [] [] []).loadData
          ["2024-01-01T00.00.00", "2024-01-02T00.00.00"]
          [(versionedPath "data/x.parquet" "2024-01-02T00.00.00", "blob2"),
           (versionedPath "data/x.parquet" "2024-01-01T00.00.00", "blob1")] =
        Except.ok (some "blob2")) ∧
      (lazyAutoVersioned "data/x.parquet" "parquet" [] [] []).load
          ["2024-01-01T00.00.00", "2024-01-02T00.00.00"] (fun _ => true) =
        LazyLoadOutcome.scanLocal "scan_parquet"
          (versionedPath "data/x.parquet" "2024-01-02T00.00.00") [] := by
  have h :=
    load_resolves_latest_version "data/x.parquet" "parquet" "blob1" "blob2"
      "2024-01-01T00.00.00" "2024-01-02T00.00.00" [] [] []
      (String.lt_iff_toList_lt.mpr (by decide)) rfl
  exact ⟨h.1, h.2.1, h.2.2.1, h.2.2.2 (fun _ => true) rfl⟩

theorem pqReadTable_rows_length (file : PqTable) (cols : Option (List String)) :
    (pqReadTable file cols).rows.length = file.rows.length := by
  cases cols <;> simp [pqReadTable]

/-- A concrete five-row parquet file. -/
def pqSampleFile : PqTable :=
  { columns := ["c1", "c2"]
    rows := [["1", "a"], ["2", "b"], ["3", "c"], ["4", "d"], ["5", "e"]] }

/-- C7 counterexample: `preview(2)` on a five-row file does not read only
the first two rows — the `pyarrow.parquet.read_table` call inside
`preview` materializes all five rows before the slice is taken, so the
read cost is not bounded by the requested row count. -/
theorem parquet_preview_not_bounded_counterexample :
    ¬ ParquetDataset.previewRowsRead parquetPlainSample pqSampleFile ≤ 2 := by
  decide

/-- C7 amended: whenever the load path resolves, `preview` returns the
first `nrows` rows of the table restricted to the columns requested in the
load options, in split structure with the row index `0..k-1` where
`k = min nrows total`; however the reader call inside `preview`
materializes every row of the file, so its cost is not bounded by
`nrows`. -/
theorem parquet_preview_returns_first_rows (d : ParquetDataset)
    (existing : List String) (file : PqTable) (nrows : Nat) (lp : String)
    (hres : resolveLoadPath d.filepath d.version existing = Except.ok lp) :
    d.preview existing file nrows =
        Except.ok
          { columns := (pqReadTable file (dictColumns d.load_args)).columns
            index := List.range (min nrows file.rows.length)
            data := (pqReadTable file (dictColumns d.load_args)).rows.take nrows } ∧
      d.previewRowsRead file = file.rows.length := by
  constructor
  · unfold ParquetDataset.preview
    rw [hres]
    simp [List.length_take, pqReadTable_rows_length]
  · exact pqReadTable_rows_length _ _

/-- An eager `ParquetDataset` whose load options restrict the columns. -/
def parquetColumnsSample : ParquetDataset :=
  ParquetDataset.init "data/x.parquet"
    (some [("columns", PyVal.strList ["c2"])]) none none none none

/-- Witness for the amended C7: previewing three rows of the five-row file
restricted to column `c2` yields exactly those three cells in split
structure, while the reader materializes all five rows. -/
theorem parquet_preview_returns_first_rows_witness :
    parquetColumnsSample.preview [] pqSampleFile 3 =
        Except.ok
          { columns := ["c2"]
            index := [0, 1, 2]
            data := [["a"], ["b"], ["c"]] } ∧
      parquetColumnsSample.previewRowsRead pqSampleFile = 5 :=
  parquet_preview_returns_first_rows parquetColumnsSample [] pqSampleFile 3
    "data/x.parquet" rfl
